import Mathlib

/-!
Shallow embedding of the data layer of the 508.dev discord bot:
`bot/utils/data_store.py` (class `ServiceDataStore`, a SQLite-backed store
with three tables: `members`, `service_data`, `cache`) and
`bot/utils/crm_cache.py` (class `CRMDataAdapter`, a cache-aside adapter over
the store and the remote EspoCRM client `bot/utils/espo_api_client.py`).

Modelling decisions:
* JSON values are the inductive type `Json` (strings, integers, booleans,
  null, arrays, objects).  `json.dumps`/`json.loads` round-tripping of such a
  tree is the identity (object keys are strings, numbers are exact), so a
  stored JSON column holds the `Json` tree itself.
* SQLite tables are lists of row structures in rowid order: `INSERT OR
  REPLACE` deletes every row that conflicts on a PRIMARY KEY / UNIQUE column
  (NULLs never conflict) and appends the fresh row at the end; a `SELECT`
  without `ORDER BY` reads rows in that list order, `fetchone` is `find?`.
  Deleting a `members` row that is still referenced by a `service_data.
  member_id` (`PRAGMA foreign_keys = ON`) aborts the statement with an
  integrity error, as does inserting a `service_data` row whose `member_id`
  does not exist.
* `time.time()` is an explicit `now : Int` argument and `uuid.uuid4()` an
  explicit `genId : String` argument.
* CRM contact fields read by the adapter (`id`, `type`, `c508Email`,
  `emailAddress`, `cDiscordUserID`, `name`) are strings or null/absent per
  the EspoCRM API contract; a missing key and an explicit JSON null are both
  Python `None` after `dict.get`, hence both map to `none`.
-/

inductive Json where
  | null : Json
  | bool (b : Bool) : Json
  | num (n : Int) : Json
  | str (s : String) : Json
  | arr (elems : List Json) : Json
  | obj (fields : List (String × Json)) : Json

namespace Json

/-- `d.get(k)` on a JSON object: first field with the given key. -/
def getField (j : Json) (k : String) : Option Json :=
  match j with
  | .obj fields => (fields.find? (fun f => f.1 == k)).map (·.2)
  | _ => none

/-- `isinstance(x, dict)`. -/
def isObj : Json → Bool
  | .obj _ => true
  | _ => false

end Json

/-- `d.get(k)` restricted to string-valued fields; null, absent and
non-string values all become `none` (the adapter's fields are strings or
null by API contract). -/
def pyStrOpt (j : Json) (k : String) : Option String :=
  match j.getField k with
  | some (Json.str s) => some s
  | _ => none

/-- Python truthiness of an optional string: `None` and `""` are falsy. -/
def strOptTruthy : Option String → Bool
  | some s => s ≠ ""
  | none => false

/-- `s.endswith(suffix)`, defined over the character lists so that concrete
instances evaluate definitionally. -/
def strEndsWith (s suffix : String) : Bool :=
  suffix.data.isSuffixOf s.data

/-- A row of the `members` table. -/
structure MemberRow where
  id : String
  email_508 : Option String
  email_other : Option String
  discord_user_id : Option String
  display_name : Option String
  member_type : String
  created_at : Int
  updated_at : Int
  deriving DecidableEq

/-- A row of the `service_data` table. -/
structure ServiceDataRow where
  id : String
  service : String
  entity_type : String
  entity_id : String
  member_id : Option String
  data : Json
  updated_at : Int

/-- A row of the `cache` table. -/
structure CacheRow where
  key : String
  value : Json
  expires_at : Option Int
  service : String

/-- The state of `ServiceDataStore`'s SQLite database, each table in rowid
order. -/
structure Store where
  members : List MemberRow
  service_data : List ServiceDataRow
  cache : List CacheRow

def emptyStore : Store := ⟨[], [], []⟩

/-- Exceptions the store layer can raise. -/
inductive DBError where
  | integrityError : DBError
  | valueError : DBError
  deriving DecidableEq

/-- Unwrap an `Except` with a default, for building concrete test states. -/
def exOr {α : Type} (d : α) : Except DBError α → α
  | Except.ok a => a
  | Except.error _ => d

/-- Two `members` rows collide on a `PRIMARY KEY`/`UNIQUE` column
(`id`, `email_508`, `discord_user_id`; SQL NULLs never collide). -/
def memberConflict (m r : MemberRow) : Bool :=
  m.id == r.id ||
  (m.email_508.isSome && m.email_508 == r.email_508) ||
  (m.discord_user_id.isSome && m.discord_user_id == r.discord_user_id)

/-- `INSERT OR REPLACE INTO members`: conflicting rows are deleted and the
new row appended; deleting a row still referenced from
`service_data.member_id` fails the foreign-key check. -/
def insertOrReplaceMember (st : Store) (r : MemberRow) : Except DBError Store :=
  let doomed := st.members.filter (fun m => memberConflict m r)
  if doomed.any (fun m => st.service_data.any (fun s => s.member_id == some m.id)) then
    Except.error DBError.integrityError
  else
    Except.ok { st with members := st.members.filter (fun m => !(memberConflict m r)) ++ [r] }

/-- The `UPDATE` branch of `create_or_update_member`: only arguments that are
not `None` are written; `updated_at` is bumped when any field is written.
A `UNIQUE` collision with another row or a `CHECK`-violating `member_type`
aborts with an integrity error. -/
def updateMember (st : Store) (mid : String)
    (email508 emailOther discordUserId displayName memberType : Option String)
    (now : Int) : Except DBError (String × Store) :=
  match st.members.find? (fun m => m.id == mid) with
  | none => Except.ok (mid, st)
  | some row =>
    if email508.isSome || emailOther.isSome || discordUserId.isSome ||
        displayName.isSome || memberType.isSome then
      let newRow : MemberRow :=
        { row with
          email_508 := if email508.isSome then email508 else row.email_508
          email_other := if emailOther.isSome then emailOther else row.email_other
          discord_user_id := if discordUserId.isSome then discordUserId else row.discord_user_id
          display_name := if displayName.isSome then displayName else row.display_name
          member_type := match memberType with | some t => t | none => row.member_type
          updated_at := now }
      if !(newRow.member_type == "candidate" || newRow.member_type == "member") then
        Except.error DBError.integrityError
      else if st.members.any (fun m => !(m.id == mid) &&
          ((m.email_508.isSome && m.email_508 == newRow.email_508) ||
           (m.discord_user_id.isSome && m.discord_user_id == newRow.discord_user_id))) then
        Except.error DBError.integrityError
      else
        Except.ok (mid, { st with
          members := st.members.map (fun m => if m.id == mid then newRow else m) })
    else
      Except.ok (mid, st)

/-- `ServiceDataStore.create_or_update_member`: updates in place when a
truthy `member_id` names an existing row, otherwise validates `member_type`
and inserts a fresh row (id = the given truthy `member_id`, else a new
UUID `genId`) with `INSERT OR REPLACE`. -/
def create_or_update_member (st : Store)
    (memberId email508 emailOther discordUserId displayName memberType : Option String)
    (genId : String) (now : Int) : Except DBError (String × Store) :=
  let givenId := match memberId with
    | some s => if s == "" then none else some s
    | none => none
  match givenId with
  | some mid =>
    if (st.members.find? (fun m => m.id == mid)).isSome then
      updateMember st mid email508 emailOther discordUserId displayName memberType now
    else
      createMemberRow st mid email508 emailOther discordUserId displayName memberType now
  | none =>
    createMemberRow st genId email508 emailOther discordUserId displayName memberType now
where
  /-- The create branch: `member_type` must be `candidate` or `member`
  (else `ValueError`), then insert-or-replace. -/
  createMemberRow (st : Store) (mid : String)
      (email508 emailOther discordUserId displayName memberType : Option String)
      (now : Int) : Except DBError (String × Store) :=
    match memberType with
    | some mt =>
      if mt == "candidate" || mt == "member" then
        match insertOrReplaceMember st
            { id := mid, email_508 := email508, email_other := emailOther,
              discord_user_id := discordUserId, display_name := displayName,
              member_type := mt, created_at := now, updated_at := now } with
        | Except.error e => Except.error e
        | Except.ok st2 => Except.ok (mid, st2)
      else
        Except.error DBError.valueError
    | none => Except.error DBError.valueError

/-- The composite `service_data.id` string `"service:entity_type:entity_id"`. -/
def serviceDataId (service entityType entityId : String) : String :=
  service ++ ":" ++ entityType ++ ":" ++ entityId

/-- The foreign-key check of `set_service_data`: a non-null `member_id`
must reference an existing member row. -/
def memberIdFkOk (st : Store) : Option String → Bool
  | some m => st.members.any (fun mr => mr.id == m)
  | none => true

/-- `ServiceDataStore.set_service_data`: `INSERT OR REPLACE` keyed on the
composite id; a non-null `member_id` must reference an existing member row. -/
def set_service_data (st : Store) (service entityType entityId : String)
    (data : Json) (memberId : Option String) (now : Int) : Except DBError Store :=
  if memberIdFkOk st memberId then
    Except.ok { st with service_data :=
      st.service_data.filter (fun r => !(r.id == serviceDataId service entityType entityId)) ++
        [{ id := serviceDataId service entityType entityId, service := service,
           entity_type := entityType, entity_id := entityId,
           member_id := memberId, data := data, updated_at := now }] }
  else
    Except.error DBError.integrityError

/-- `ServiceDataStore.get_service_data`. -/
def get_service_data (st : Store) (service entityType entityId : String) :
    Option ServiceDataRow :=
  st.service_data.find? (fun r => r.id == serviceDataId service entityType entityId)

/-- `ServiceDataStore.set_cache`: `expires_at` is set only for a truthy
`ttl_seconds` (so `0` and `None` both mean "no expiry"). -/
def set_cache (st : Store) (key : String) (value : Json) (service : String)
    (ttlSeconds : Option Int) (now : Int) : Store :=
  let expiresAt : Option Int := match ttlSeconds with
    | some t => if t ≠ 0 then some (now + t) else none
    | none => none
  { st with cache := st.cache.filter (fun r => !(r.key == key)) ++
      [{ key := key, value := value, expires_at := expiresAt, service := service }] }

/-- `ServiceDataStore.get_cache`: returns the value unless the row carries a
truthy `expires_at` in the past, in which case the row is deleted and the
read misses. -/
def get_cache (st : Store) (key : String) (now : Int) : Option Json × Store :=
  match st.cache.find? (fun r => r.key == key) with
  | none => (none, st)
  | some row =>
    match row.expires_at with
    | some e =>
      if e ≠ 0 ∧ e < now then
        (none, { st with cache := st.cache.filter (fun r => !(r.key == key)) })
      else
        (some row.value, st)
    | none => (some row.value, st)

/-- `ServiceDataStore.clear_expired_cache`: delete every row with
`expires_at IS NOT NULL AND expires_at <= now`, returning the count. -/
def clear_expired_cache (st : Store) (now : Int) : Nat × Store :=
  let isExpired : CacheRow → Bool := fun r =>
    match r.expires_at with
    | some e => decide (e ≤ now)
    | none => false
  ((st.cache.filter isExpired).length,
   { st with cache := st.cache.filter (fun r => !(isExpired r)) })

/-- `ServiceDataStore.clear_service_cache`: delete this service's cache rows,
returning the count. -/
def clear_service_cache (st : Store) (service : String) : Nat × Store :=
  ((st.cache.filter (fun r => r.service == service)).length,
   { st with cache := st.cache.filter (fun r => !(r.service == service)) })

/-- Append a service row to its `entity_type` group, creating the group at
the end on first sight (Python dict insertion order). -/
def addRowToTypeGroups (et : String) (r : ServiceDataRow) :
    List (String × List ServiceDataRow) → List (String × List ServiceDataRow)
  | [] => [(et, [r])]
  | (k, rs) :: rest =>
    if k == et then (k, rs ++ [r]) :: rest
    else (k, rs) :: addRowToTypeGroups et r rest

/-- Append a service row to its `service` group (Python dict insertion
order). -/
def addRowToServiceGroups (r : ServiceDataRow) :
    List (String × List (String × List ServiceDataRow)) →
    List (String × List (String × List ServiceDataRow))
  | [] => [(r.service, [(r.entity_type, [r])])]
  | (k, gs) :: rest =>
    if k == r.service then (k, addRowToTypeGroups r.entity_type r gs) :: rest
    else (k, gs) :: addRowToServiceGroups r rest

/-- The loop of `get_member_by_discord_id` that turns the fetched
`service_data` rows (in `SELECT` order — the query has no `ORDER BY`) into
the nested `{service: {entity_type: [row, ...]}}` dict. -/
def groupServiceRows (rows : List ServiceDataRow) :
    List (String × List (String × List ServiceDataRow)) :=
  rows.foldl (fun acc r => addRowToServiceGroups r acc) []

/-- The `{"member": ..., "services": ...}` result of the member queries. -/
structure MemberResult where
  member : MemberRow
  services : List (String × List (String × List ServiceDataRow))

/-- `ServiceDataStore.get_member_by_discord_id`: the member row plus all of
its `service_data` rows grouped by service and entity type. -/
def get_member_by_discord_id (st : Store) (discordUserId : String) :
    Option MemberResult :=
  match st.members.find? (fun m => m.discord_user_id == some discordUserId) with
  | none => none
  | some m =>
    some { member := m,
           services := groupServiceRows
             (st.service_data.filter (fun r => r.member_id == some m.id)) }

/-! ## The CRM data adapter (`bot/utils/crm_cache.py`)

The remote client's `EspoAPI.request` either returns a JSON object or raises
`EspoAPIError` (non-200 status, empty body, non-object body); one adapter
call performs at most one remote request, so a request's outcome is a single
`ApiOutcome` argument.  Results are `(value, store, remoteRequests)` with
`remoteRequests` counting `EspoAPI.request` invocations; database errors
escape as `Except.error` (the adapter only catches `EspoAPIError`). -/

/-- Outcome of the single `EspoAPI.request` call an adapter operation may
make. -/
inductive ApiOutcome where
  | ok (response : Json) : ApiOutcome
  | espoError : ApiOutcome

/-- `response.get("list", [])` on a remote search response. -/
def responseList (resp : Json) : List Json :=
  match resp.getField "list" with
  | some (Json.arr xs) => xs
  | _ => []

/-- The member-type classification of `_cache_contact`: CRM types `Member`
and `Candidate / Member` map to `member`, `Candidate` to `candidate`, and
anything else (including a missing field, defaulted to `""`) is skipped. -/
def memberTypeOf (c : Json) : Option String :=
  match c.getField "type" with
  | some (Json.str s) =>
    if s == "Member" || s == "Candidate / Member" then some "member"
    else if s == "Candidate" then some "candidate"
    else none
  | _ => none

/-- The email extraction of `_cache_contact`: a falsy or literal-`"None"`
`c508Email` is nulled; a truthy `emailAddress` ending in `@508.dev` is
promoted into the 508 slot (clearing the generic slot) when the 508 slot is
empty.  Returns `(email_508, email_other)`. -/
def extractEmails (c : Json) : Option String × Option String :=
  let e508raw := pyStrOpt c "c508Email"
  let e508 := if e508raw == some "None" || !(strOptTruthy e508raw) then none else e508raw
  let eOther := pyStrOpt c "emailAddress"
  match eOther with
  | some s =>
    if s ≠ "" ∧ strEndsWith s "@508.dev" then
      if e508.isNone then (some s, none) else (e508, eOther)
    else (e508, eOther)
  | none => (e508, none)

/-- The Discord-id extraction of `_cache_contact`: the placeholder
`"No Discord"` and falsy values become null. -/
def discordIdOf (c : Json) : Option String :=
  match pyStrOpt c "cDiscordUserID" with
  | some s => if s == "No Discord" || s == "" then none else some s
  | none => none

/-- `CRMDataAdapter._cache_contact`: skip contacts without a truthy id or a
member/candidate type; otherwise create the member row (fresh UUID `genId`)
and store the raw contact as this member's `espocrm/contact` service row. -/
def cache_contact (st : Store) (c : Json) (genId : String) (now : Int) :
    Except DBError Store :=
  match pyStrOpt c "id" with
  | none => Except.ok st
  | some cid =>
    if cid == "" then Except.ok st
    else
      match memberTypeOf c with
      | none => Except.ok st
      | some mt =>
        let emails := extractEmails c
        match create_or_update_member st none emails.1 emails.2 (discordIdOf c)
            (pyStrOpt c "name") (some mt) genId now with
        | Except.error e => Except.error e
        | Except.ok (mid, st1) =>
          set_service_data st1 "espocrm" "contact" cid c (some mid) now

/-- `CRMDataAdapter.find_contact_by_discord_id`: local store first (a hit
needs an `espocrm`/`contact` group on the member and returns its first
row's payload if it is a dict); on miss one remote request.  `EspoAPIError`
is caught and turned into `None`; a zero-result response is `None`; a found
contact is cached through `_cache_contact` before being returned. -/
def find_contact_by_discord_id (st : Store) (api : ApiOutcome)
    (discordUserId genId : String) (now : Int) :
    Except DBError (Option Json × Store × Nat) :=
  let hit : Option Json :=
    match get_member_by_discord_id st discordUserId with
    | none => none
    | some m =>
      match m.services.lookup "espocrm" with
      | none => none
      | some groups =>
        match groups.lookup "contact" with
        | some (r :: _) => some r.data
        | _ => none
  match hit with
  | some contactData =>
    Except.ok (if contactData.isObj then some contactData else none, st, 0)
  | none =>
    match api with
    | ApiOutcome.espoError => Except.ok (none, st, 1)
    | ApiOutcome.ok resp =>
      match responseList resp with
      | [] => Except.ok (none, st, 1)
      | c :: _ =>
        match cache_contact st c genId now with
        | Except.error e => Except.error e
        | Except.ok st2 => Except.ok (some c, st2, 1)

/-- `CRMDataAdapter.find_member_by_discord_id`: fast path on the local
store; otherwise fall through to `find_contact_by_discord_id` and re-read
the store if a contact came back. -/
def find_member_by_discord_id (st : Store) (api : ApiOutcome)
    (discordUserId genId : String) (now : Int) :
    Except DBError (Option MemberResult × Store × Nat) :=
  match get_member_by_discord_id st discordUserId with
  | some m => Except.ok (some m, st, 0)
  | none =>
    match find_contact_by_discord_id st api discordUserId genId now with
    | Except.error e => Except.error e
    | Except.ok (some _, st2, n) =>
      Except.ok (get_member_by_discord_id st2 discordUserId, st2, n)
    | Except.ok (none, st2, n) => Except.ok (none, st2, n)

/-- `CRMDataAdapter.clear_cache`: clear the adapter's (`"espocrm"`) cache
partition. -/
def clear_cache (st : Store) : Nat × Store :=
  clear_service_cache st "espocrm"

/-- The member row `_cache_contact` inserts for a contact of classified type
`mt` when the fresh UUID is `g`. -/
def cachedMemberRow (c : Json) (g mt : String) (t : Int) : MemberRow :=
  { id := g, email_508 := (extractEmails c).1, email_other := (extractEmails c).2,
    discord_user_id := discordIdOf c, display_name := pyStrOpt c "name",
    member_type := mt, created_at := t, updated_at := t }

/-- The service row `_cache_contact` inserts for contact id `cid`, linked to
member `g`. -/
def cachedServiceRow (c : Json) (cid g : String) (t : Int) : ServiceDataRow :=
  { id := serviceDataId "espocrm" "contact" cid, service := "espocrm",
    entity_type := "contact", entity_id := cid, member_id := some g,
    data := c, updated_at := t }

/-! ## Concrete test fixtures for the claims -/

/-- A remote search response with an empty `list` (unknown id). -/
def c1ApiEmpty : ApiOutcome := ApiOutcome.ok (Json.obj [("list", Json.arr [])])

/-- A candidate contact carrying Discord user id `987`. -/
def c1Jane : Json := Json.obj [("id", Json.str "c456"),
  ("type", Json.str "Candidate"), ("emailAddress", Json.str "jane@example.com"),
  ("cDiscordUserID", Json.str "987")]

/-- A remote search response returning `c1Jane`. -/
def c1Resp : Json := Json.obj [("list", Json.arr [c1Jane])]

/-- The store after `c1Jane` has been cached on the first miss. -/
def c1Store : Store := exOr emptyStore (cache_contact emptyStore c1Jane "g1" 0)

/-- A candidate contact with neither a Discord id nor a 508 email (so its
member row has no UNIQUE column populated). -/
def c2Bob : Json := Json.obj [("id", Json.str "c1"), ("type", Json.str "Candidate"),
  ("emailAddress", Json.str "bob@example.com"), ("name", Json.str "Bob")]

/-- The store after caching `c2Bob` once (fresh UUID `u1`). -/
def c2StoreA : Store := exOr emptyStore (cache_contact emptyStore c2Bob "u1" 0)

/-- The store after re-caching the same contact (fresh UUID `u2`). -/
def c2StoreB : Store := exOr emptyStore (cache_contact c2StoreA c2Bob "u2" 1)

/-- A member contact with a 508 email and a Discord id (UNIQUE columns
populated). -/
def c2John : Json := Json.obj [("id", Json.str "c2"), ("type", Json.str "Member"),
  ("c508Email", Json.str "j@508.dev"), ("cDiscordUserID", Json.str "777")]

/-- The store after caching `c2John` once (fresh UUID `v1`). -/
def c2StoreJohn : Store := exOr emptyStore (cache_contact emptyStore c2John "v1" 0)

/-- A member contact whose `c508Email` is the placeholder `"None"` and whose
generic email is on the organisation's domain. -/
def c4Alice : Json := Json.obj [("id", Json.str "c9"), ("type", Json.str "Member"),
  ("c508Email", Json.str "None"), ("emailAddress", Json.str "alice@508.dev"),
  ("cDiscordUserID", Json.str "111")]

/-- The store after caching `c4Alice`. -/
def c4Store : Store := exOr emptyStore (cache_contact emptyStore c4Alice "w1" 0)

/-- Cache entry `k -> "v"` written at time 0 with a 1-second TTL. -/
def c5Store : Store := set_cache emptyStore "k" (Json.str "v") "svc" (some 1) 0

/-- Two writes of the same service record at times 1 and 2. -/
def c6Store1 : Store := exOr emptyStore (set_service_data emptyStore "s" "t" "e" Json.null none 1)

def c6Store2 : Store := exOr emptyStore (set_service_data c6Store1 "s" "t" "e" Json.null none 2)

/-- A nested JSON payload (nulls, arrays, nested objects). -/
def c7Payload : Json := Json.obj [("a", Json.null),
  ("b", Json.arr [Json.num 1, Json.bool true, Json.arr []]),
  ("c", Json.obj [("d", Json.str "x"), ("e", Json.arr [Json.null])])]

def c7Store : Store := exOr emptyStore (set_service_data emptyStore "svc" "et" "eid" c7Payload none 3)

/-- A member `m1` (Discord id `d1`) with two `espocrm/contact` service rows:
`c1` written at time 1, then `c2` written at time 2. -/
def c8Store : Store :=
  exOr emptyStore (do
    let (mid, st1) ← create_or_update_member emptyStore none none none (some "d1")
      (some "M") (some "member") "m1" 0
    let st2 ← set_service_data st1 "espocrm" "contact" "c1"
      (Json.obj [("id", Json.str "c1")]) (some mid) 1
    set_service_data st2 "espocrm" "contact" "c2"
      (Json.obj [("id", Json.str "c2")]) (some mid) 2)

/-! ## List helper lemmas -/

theorem find?_filterOut_none {α : Type} (p : α → Bool) (l : List α) :
    (l.filter (fun a => !(p a))).find? p = none := by
  rw [List.find?_eq_none]
  intro x hx
  have h2 := (List.mem_filter.mp hx).2
  simp only [Bool.not_eq_true'] at h2
  simp [h2]

theorem find?_filter_none {α : Type} (p q : α → Bool) (l : List α)
    (h : l.find? p = none) : (l.filter q).find? p = none := by
  rw [List.find?_eq_none] at h ⊢
  intro x hx
  exact h x (List.mem_filter.mp hx).1

theorem find?_append_left_none {α : Type} (p : α → Bool) (l₁ l₂ : List α)
    (h : l₁.find? p = none) : (l₁ ++ l₂).find? p = l₂.find? p := by
  induction l₁ with
  | nil => rfl
  | cons a l ih =>
    by_cases hp : p a = true
    · rw [List.find?_cons, hp] at h
      simp at h
    · have hp' : p a = false := by simpa using hp
      rw [List.find?_cons, hp'] at h
      rw [List.cons_append, List.find?_cons, hp']
      exact ih h

theorem find?_filterOut_append {α : Type} (p : α → Bool) (l : List α) (x : α)
    (hx : p x = true) :
    (l.filter (fun a => !(p a)) ++ [x]).find? p = some x := by
  rw [find?_append_left_none p _ _ (find?_filterOut_none p l)]
  rw [List.find?_cons, hx]

theorem filter_of_filterOut {α : Type} (p : α → Bool) (l : List α) :
    (l.filter (fun a => !(p a))).filter p = [] := by
  induction l with
  | nil => rfl
  | cons a l ih =>
    by_cases hp : p a = true
    · simp [List.filter_cons, hp, ih]
    · have hp' : p a = false := by simpa using hp
      simp [List.filter_cons, hp', ih]

/-! ## Claim C9 -/

/-- C9: the adapter's `clear_cache` removes exactly the cache-table rows of
its own `espocrm` service partition and returns their count; the members
table and the service_data table are left unchanged. -/
theorem c9_clear_cache_frame (st : Store) :
    (clear_cache st).2.members = st.members ∧
    (clear_cache st).2.service_data = st.service_data ∧
    (clear_cache st).2.cache = st.cache.filter (fun r => !(r.service == "espocrm")) ∧
    (clear_cache st).1 = (st.cache.filter (fun r => r.service == "espocrm")).length :=
  ⟨rfl, rfl, rfl, rfl⟩

/-! ## Claim C10 -/

/-- C10: `set_cache` with `ttl_seconds = 0` stores an entry with no expiry,
identical to the store produced when `ttl_seconds` is omitted, and a
`get_cache` at any later time still returns the value. -/
theorem c10_zero_ttl_no_expiry (st : Store) (k : String) (v : Json)
    (svc : String) (t t2 : Int) :
    set_cache st k v svc (some 0) t = set_cache st k v svc none t ∧
    (get_cache (set_cache st k v svc (some 0) t) k t2).1 = some v := by
  constructor
  · rfl
  · unfold get_cache
    have h1 : (set_cache st k v svc (some 0) t).cache =
        st.cache.filter (fun r => !(r.key == k)) ++
          [{ key := k, value := v, expires_at := none, service := svc }] := rfl
    rw [h1, find?_filterOut_append (fun r : CacheRow => r.key == k) _ _ (by simp)]

/-- On a local-store miss, a remote transport error makes
`find_contact_by_discord_id` return `None` with one request made. -/
theorem find_contact_miss_error (st : Store) (did g : String) (t : Int)
    (hmiss : get_member_by_discord_id st did = none) :
    find_contact_by_discord_id st ApiOutcome.espoError did g t =
      Except.ok (none, st, 1) := by
  unfold find_contact_by_discord_id
  rw [hmiss]

/-- On a local-store miss with a successful remote response, the result of
`find_contact_by_discord_id` is decided by the response's contact list. -/
theorem find_contact_miss_ok (st : Store) (resp : Json) (did g : String)
    (t : Int) (hmiss : get_member_by_discord_id st did = none) :
    find_contact_by_discord_id st (ApiOutcome.ok resp) did g t =
      (match responseList resp with
       | [] => Except.ok (none, st, 1)
       | c :: _ =>
         match cache_contact st c g t with
         | Except.error e => Except.error e
         | Except.ok st2 => Except.ok (some c, st2, 1)) := by
  unfold find_contact_by_discord_id
  rw [hmiss]

/-! ## Claim C3 -/

/-- C3 counterexample: on a store miss, a transport error (`EspoAPIError`)
in the remote request is not propagated by `find_contact_by_discord_id`; the
call returns `None` exactly as a zero-result response does. -/
theorem c3_counterexample :
    find_contact_by_discord_id emptyStore ApiOutcome.espoError "discord-1" "gen-1" 0 =
      Except.ok (none, emptyStore, 1) := rfl

/-- C3 amended: for every platform user id that misses the local store, an
`EspoAPIError` from the remote request is caught, and `None` is returned —
the same not-found result as a remote response with zero results.  The
error is not propagated to the caller. -/
theorem c3_transport_error_swallowed (st : Store) (did g : String) (t : Int)
    (resp : Json) (hmiss : get_member_by_discord_id st did = none)
    (hresp : responseList resp = []) :
    find_contact_by_discord_id st ApiOutcome.espoError did g t =
      Except.ok (none, st, 1) ∧
    find_contact_by_discord_id st (ApiOutcome.ok resp) did g t =
      Except.ok (none, st, 1) := by
  refine ⟨find_contact_miss_error st did g t hmiss, ?_⟩
  rw [find_contact_miss_ok st resp did g t hmiss, hresp]

/-- C3 witness: the amended theorem at a concrete miss. -/
theorem c3_transport_error_swallowed_witness :
    find_contact_by_discord_id emptyStore ApiOutcome.espoError "d9" "g9" 7 =
      Except.ok (none, emptyStore, 1) ∧
    find_contact_by_discord_id emptyStore
        (ApiOutcome.ok (Json.obj [("list", Json.arr [])])) "d9" "g9" 7 =
      Except.ok (none, emptyStore, 1) :=
  c3_transport_error_swallowed emptyStore "d9" "g9" 7
    (Json.obj [("list", Json.arr [])]) rfl rfl

/-! ## Claim C5 -/

/-- C5 counterexample: after `set_cache(k, v, svc, ttl_seconds = 1)` at time
0, the read at time 0 returns the value and the read at time 2 misses; but
that expired read eagerly purges the entry, so the subsequent
`clear_expired_cache` reports 0 removed entries, not 1. -/
theorem c5_counterexample :
    (get_cache c5Store "k" 0).1 = some (Json.str "v") ∧
    (get_cache c5Store "k" 2).1 = none ∧
    (clear_expired_cache (get_cache c5Store "k" 2).2 3).1 = 0 :=
  ⟨rfl, rfl, rfl⟩

/-- C5 amended: with a 1-second TTL written at `t0 ≥ 0`, an immediate read
returns the value; a read past `t0 + 1` returns absent and eagerly deletes
the entry, so a `clear_expired_cache` after that expired read removes 0
entries; a `clear_expired_cache` run instead of the expired read does count
the entry. -/
theorem c5_ttl_lazy_expiry (k : String) (v : Json) (svc : String)
    (t0 t1 t2 : Int) (h0 : 0 ≤ t0) (h1 : t0 + 1 < t1) (h2 : t1 ≤ t2) :
    (get_cache (set_cache emptyStore k v svc (some 1) t0) k t0).1 = some v ∧
    (get_cache (set_cache emptyStore k v svc (some 1) t0) k t1).1 = none ∧
    (clear_expired_cache
      (get_cache (set_cache emptyStore k v svc (some 1) t0) k t1).2 t2).1 = 0 ∧
    (clear_expired_cache (set_cache emptyStore k v svc (some 1) t0) t2).1 = 1 := by
  have hset : set_cache emptyStore k v svc (some 1) t0 =
      { members := [], service_data := [],
        cache := [{ key := k, value := v, expires_at := some (t0 + 1), service := svc }] } := rfl
  have hfind : ([{ key := k, value := v, expires_at := some (t0 + 1), service := svc }] :
      List CacheRow).find? (fun r => r.key == k) =
      some { key := k, value := v, expires_at := some (t0 + 1), service := svc } := by
    rw [List.find?_cons]
    simp
  refine ⟨?_, ?_, ?_, ?_⟩
  · unfold get_cache
    rw [hset]
    simp only [hfind]
    rw [if_neg (show ¬(t0 + 1 ≠ 0 ∧ t0 + 1 < t0) by omega)]
  · unfold get_cache
    rw [hset]
    simp only [hfind]
    rw [if_pos (show t0 + 1 ≠ 0 ∧ t0 + 1 < t1 by omega)]
  · unfold get_cache
    rw [hset]
    simp only [hfind]
    rw [if_pos (show t0 + 1 ≠ 0 ∧ t0 + 1 < t1 by omega)]
    unfold clear_expired_cache
    simp [List.filter_cons]
  · rw [hset]
    unfold clear_expired_cache
    have hexp : decide (t0 + 1 ≤ t2) = true := by simp; omega
    simp [List.filter_cons, hexp]

/-- C5 witness: the amended theorem at `t0 = 0`, `t1 = 2`, `t2 = 2`. -/
theorem c5_ttl_lazy_expiry_witness :
    (get_cache (set_cache emptyStore "k" Json.null "s" (some 1) 0) "k" 0).1 = some Json.null ∧
    (get_cache (set_cache emptyStore "k" Json.null "s" (some 1) 0) "k" 2).1 = none ∧
    (clear_expired_cache
      (get_cache (set_cache emptyStore "k" Json.null "s" (some 1) 0) "k" 2).2 2).1 = 0 ∧
    (clear_expired_cache (set_cache emptyStore "k" Json.null "s" (some 1) 0) 2).1 = 1 :=
  c5_ttl_lazy_expiry "k" Json.null "s" 0 2 2 (by decide) (by decide) (by decide)

/-! ## Claim C6 -/

/-- C6: writing the same `(service, entity_type, entity_id)` key with the
same payload twice leaves exactly one `service_data` row for that key, whose
`updated_at` is the second write's time. -/
theorem c6_upsert_idempotent (st : Store) (svc et eid : String) (payload : Json)
    (mid : Option String) (t1 t2 : Int) (st1 st2 : Store)
    (h1 : set_service_data st svc et eid payload mid t1 = Except.ok st1)
    (h2 : set_service_data st1 svc et eid payload mid t2 = Except.ok st2) :
    st2.service_data.filter (fun r => r.id == serviceDataId svc et eid) =
      [{ id := serviceDataId svc et eid, service := svc, entity_type := et,
         entity_id := eid, member_id := mid, data := payload, updated_at := t2 }] := by
  unfold set_service_data at h1 h2
  split at h1
  · injection h1 with h1
    subst h1
    split at h2
    · injection h2 with h2
      subst h2
      simp [List.filter_append, filter_of_filterOut, List.filter_cons]
    · exact Except.noConfusion h2
  · exact Except.noConfusion h1

/-- Reading a key right after its row was upserted at the end of the table
returns that row. -/
theorem get_service_data_of_eq (st1 : Store) (svc et eid : String)
    (l : List ServiceDataRow) (row : ServiceDataRow)
    (hsd : st1.service_data =
      l.filter (fun r => !(r.id == serviceDataId svc et eid)) ++ [row])
    (hid : row.id = serviceDataId svc et eid) :
    get_service_data st1 svc et eid = some row := by
  unfold get_service_data
  rw [hsd, find?_filterOut_append _ _ _ (by simp [hid])]

/-- C6 witness: the theorem at a concrete double write. -/
theorem c6_upsert_idempotent_witness :
    c6Store2.service_data.filter (fun r => r.id == serviceDataId "s" "t" "e") =
      [{ id := serviceDataId "s" "t" "e", service := "s", entity_type := "t",
         entity_id := "e", member_id := none, data := Json.null, updated_at := 2 }] :=
  c6_upsert_idempotent emptyStore "s" "t" "e" Json.null none 1 2 c6Store1 c6Store2 rfl rfl

/-! ## Claim C7 -/

/-- C7: a `set_service_data` followed by `get_service_data` on the same key
returns a payload equal to the one stored. -/
theorem c7_payload_roundtrip (st : Store) (svc et eid : String) (payload : Json)
    (mid : Option String) (t : Int) (st1 : Store)
    (h : set_service_data st svc et eid payload mid t = Except.ok st1) :
    (get_service_data st1 svc et eid).map (fun r => r.data) = some payload := by
  unfold set_service_data at h
  split at h
  · injection h with h
    subst h
    rw [get_service_data_of_eq _ svc et eid st.service_data _ rfl rfl]
    rfl
  · exact Except.noConfusion h

/-- C7 witness: the theorem at a nested payload with nulls, arrays and
nested objects. -/
theorem c7_payload_roundtrip_witness :
    (get_service_data c7Store "svc" "et" "eid").map (fun r => r.data) = some c7Payload :=
  c7_payload_roundtrip emptyStore "svc" "et" "eid" c7Payload none 3 c7Store rfl

/-! ## Claim C1 (counterexample part) -/

/-- C1 counterexample: for a platform user id that is in neither the local
store nor the remote CRM (zero-result response), the first
`find_member_by_discord_id` call performs one remote request and so does an
immediately following second call — the second call does not perform zero
remote requests, because a negative result is never cached. -/
theorem c1_counterexample :
    find_member_by_discord_id emptyStore c1ApiEmpty "d1" "g1" 0 =
      Except.ok (none, emptyStore, 1) ∧
    find_member_by_discord_id emptyStore c1ApiEmpty "d1" "g2" 1 =
      Except.ok (none, emptyStore, 1) :=
  ⟨rfl, rfl⟩

/-! ## Claim C2 -/

/-- C2: re-caching the same person's CRM contact does not keep the member id
stable.  Caching contact `c1` (no Discord id, no 508 email) a second time
generates a fresh member id `u2`: the contact's service row is re-pointed
from `u1` to `u2` and a second, orphaned member row remains.  For a contact
whose member row populates a UNIQUE column (`c2John`), the second
`_cache_contact` does not even complete: the `INSERT OR REPLACE` must delete
the old member row, which is still referenced by the contact's service row,
so the statement fails the foreign-key check. -/
theorem c2_member_id_not_stable :
    (get_service_data c2StoreA "espocrm" "contact" "c1").map (fun r => r.member_id) =
      some (some "u1") ∧
    (get_service_data c2StoreB "espocrm" "contact" "c1").map (fun r => r.member_id) =
      some (some "u2") ∧
    c2StoreB.members.length = 2 ∧
    cache_contact c2StoreJohn c2John "v2" 1 = Except.error DBError.integrityError :=
  ⟨rfl, rfl, rfl, rfl⟩

/-! ## Claim C8 -/

/-- C8: the `service_data` rows returned by `get_member_by_discord_id` are
grouped by `(service, entity_type)`, but within a group they appear in table
(insertion) order, not ordered by recency: for member `m1` with contact rows
written at times 1 and then 2, the group lists `updated_at` values `[1, 2]`
— the most recently updated row is last, not first. -/
theorem c8_group_not_recency_ordered :
    (get_member_by_discord_id c8Store "d1").map
      (fun r => r.services.map (fun sg => (sg.1, sg.2.map (fun tg =>
        (tg.1, tg.2.map (fun row => row.updated_at)))))) =
      some [("espocrm", [("contact", [(1 : Int), 2])])] :=
  rfl

/-! ## Characterization of a successful `_cache_contact` -/

/-- `memberTypeOf` only classifies into the two valid member types. -/
theorem memberTypeOf_valid (c : Json) (mt : String)
    (h : memberTypeOf c = some mt) :
    (mt == "candidate" || mt == "member") = true := by
  unfold memberTypeOf at h
  split at h
  · split at h
    · injection h with h
      subst h
      rfl
    · split at h
      · injection h with h
        subst h
        rfl
      · exact Option.noConfusion h
  · exact Option.noConfusion h

/-- State equation for a `_cache_contact` call that returns successfully on
a contact with a truthy id and a member/candidate type: the members table
loses the rows conflicting with the fresh member row and gains it at the
end, the contact's service row is upserted pointing at the fresh member id,
and the cache table is untouched. -/
theorem cache_contact_eq (st : Store) (c : Json) (g cid mt : String) (t : Int)
    (hid : pyStrOpt c "id" = some cid) (hcid : (cid == "") = false)
    (hmt : memberTypeOf c = some mt) :
    cache_contact st c g t =
      (if (st.members.filter (fun m => memberConflict m (cachedMemberRow c g mt t))).any
            (fun m => st.service_data.any (fun s => s.member_id == some m.id)) then
        Except.error DBError.integrityError
      else
        Except.ok
          { members := st.members.filter
                (fun m => !(memberConflict m (cachedMemberRow c g mt t))) ++
              [cachedMemberRow c g mt t],
            service_data := st.service_data.filter
                (fun r => !(r.id == serviceDataId "espocrm" "contact" cid)) ++
              [cachedServiceRow c cid g t],
            cache := st.cache }) := by
  have hvalid := memberTypeOf_valid c mt hmt
  unfold cache_contact
  simp only [hid, hcid, hmt, Bool.false_eq_true, if_false]
  unfold create_or_update_member create_or_update_member.createMemberRow
  simp only [hvalid, if_true]
  unfold insertOrReplaceMember cachedMemberRow cachedServiceRow
  set row : MemberRow :=
    { id := g, email_508 := (extractEmails c).1, email_other := (extractEmails c).2,
      discord_user_id := discordIdOf c, display_name := pyStrOpt c "name",
      member_type := mt, created_at := t, updated_at := t } with hrow
  by_cases h : (st.members.filter (fun m => memberConflict m row)).any
      (fun m => st.service_data.any (fun s => s.member_id == some m.id)) = true
  · simp only [h, if_true]
  · have h' : (st.members.filter (fun m => memberConflict m row)).any
        (fun m => st.service_data.any (fun s => s.member_id == some m.id)) = false := by
      simpa using h
    simp only [h', Bool.false_eq_true, if_false]
    unfold set_service_data
    have hfk : memberIdFkOk
        { st with members :=
            st.members.filter (fun m => !(memberConflict m row)) ++ [row] }
        (some g) = true := by
      simp [memberIdFkOk, List.any_append, hrow]
    simp only [hfk, if_true]

/-- The store produced by a successful `_cache_contact` on a contact with a
truthy id and a member/candidate type: the members table loses the rows
conflicting with the fresh member row and gains it at the end, the
contact's service row is upserted pointing at the fresh member id, and the
cache table is untouched. -/
theorem cache_contact_ok_state (st st1 : Store) (c : Json) (g cid mt : String)
    (t : Int) (hid : pyStrOpt c "id" = some cid) (hcid : (cid == "") = false)
    (hmt : memberTypeOf c = some mt)
    (hcache : cache_contact st c g t = Except.ok st1) :
    st1.members = st.members.filter
        (fun m => !(memberConflict m (cachedMemberRow c g mt t))) ++
      [cachedMemberRow c g mt t] ∧
    st1.service_data = st.service_data.filter
        (fun r => !(r.id == serviceDataId "espocrm" "contact" cid)) ++
      [cachedServiceRow c cid g t] ∧
    st1.cache = st.cache := by
  rw [cache_contact_eq st c g cid mt t hid hcid hmt] at hcache
  split at hcache
  · exact Except.noConfusion hcache
  · injection hcache with hcache
    subst hcache
    exact ⟨rfl, rfl, rfl⟩

/-- If the member query misses, the underlying `find?` over the members
table missed. -/
theorem get_member_none_find (st : Store) (did : String)
    (h : get_member_by_discord_id st did = none) :
    st.members.find? (fun m => m.discord_user_id == some did) = none := by
  unfold get_member_by_discord_id at h
  cases hf : st.members.find? (fun m => m.discord_user_id == some did) with
  | none => rfl
  | some m =>
    simp only [hf] at h
    exact Option.noConfusion h

/-- After a successful `_cache_contact` of a contact carrying Discord id
`did` into a store with no member for `did`, the member query for `did`
finds the fresh member row. -/
theorem get_member_find_after_cache (st st1 : Store) (c : Json)
    (g cid mt did : String) (t : Int)
    (hid : pyStrOpt c "id" = some cid) (hcid : (cid == "") = false)
    (hmt : memberTypeOf c = some mt) (hdid : discordIdOf c = some did)
    (hfind0 : st.members.find? (fun m => m.discord_user_id == some did) = none)
    (hcache : cache_contact st c g t = Except.ok st1) :
    st1.members.find? (fun m => m.discord_user_id == some did) =
      some (cachedMemberRow c g mt t) := by
  obtain ⟨hmem, -, -⟩ := cache_contact_ok_state st st1 c g cid mt t hid hcid hmt hcache
  rw [hmem, find?_append_left_none _ _ _ (find?_filter_none _ _ _ hfind0),
    List.find?_cons]
  have hd : ((cachedMemberRow c g mt t).discord_user_id == some did) = true := by
    simp [cachedMemberRow, hdid]
  rw [hd]

/-! ## Claim C1 (amended part) -/

/-- C1 amended: for a platform user id `did` with no member in the local
store, when the remote CRM answers the lookup with a contact that has a
truthy id, a member/candidate type and `did` as its Discord id field, and
caching that contact succeeds, then `find_member_by_discord_id` finds the
member (`isSome`), the first call makes exactly one remote request, and an
immediately following second call — whatever its remote would answer —
makes zero remote requests and returns a result equal to the first call's
result.  (For ids the remote cannot resolve this fails: the negative result
is not cached and every call repeats the remote request.) -/
theorem c1_cache_aside (st st1 : Store) (resp c : Json) (rest : List Json)
    (did cid mt g g2 : String) (t t2 : Int) (api2 : ApiOutcome)
    (hmiss : get_member_by_discord_id st did = none)
    (hlist : responseList resp = c :: rest)
    (hid : pyStrOpt c "id" = some cid) (hcid : (cid == "") = false)
    (hmt : memberTypeOf c = some mt) (hdid : discordIdOf c = some did)
    (hcache : cache_contact st c g t = Except.ok st1) :
    (get_member_by_discord_id st1 did).isSome = true ∧
    find_member_by_discord_id st (ApiOutcome.ok resp) did g t =
      Except.ok (get_member_by_discord_id st1 did, st1, 1) ∧
    find_member_by_discord_id st1 api2 did g2 t2 =
      Except.ok (get_member_by_discord_id st1 did, st1, 0) := by
  have hfind0 := get_member_none_find st did hmiss
  have hfind1 := get_member_find_after_cache st st1 c g cid mt did t
    hid hcid hmt hdid hfind0 hcache
  have hmem1 : get_member_by_discord_id st1 did =
      some { member := cachedMemberRow c g mt t,
             services := groupServiceRows (st1.service_data.filter
               (fun r => r.member_id == some (cachedMemberRow c g mt t).id)) } := by
    unfold get_member_by_discord_id
    simp only [hfind1]
  refine ⟨by rw [hmem1]; rfl, ?_, ?_⟩
  · unfold find_member_by_discord_id
    simp only [hmiss]
    rw [find_contact_miss_ok st resp did g t hmiss]
    simp only [hlist, hcache]
  · unfold find_member_by_discord_id
    simp only [hmem1]

/-- C1 witness: the amended theorem at the concrete contact `c1Jane`
(Discord id `987`) fetched into the empty store. -/
theorem c1_cache_aside_witness :
    (get_member_by_discord_id c1Store "987").isSome = true ∧
    find_member_by_discord_id emptyStore (ApiOutcome.ok c1Resp) "987" "g1" 0 =
      Except.ok (get_member_by_discord_id c1Store "987", c1Store, 1) ∧
    find_member_by_discord_id c1Store ApiOutcome.espoError "987" "g2" 1 =
      Except.ok (get_member_by_discord_id c1Store "987", c1Store, 0) :=
  c1_cache_aside emptyStore c1Store c1Resp c1Jane [] "987" "c456" "candidate"
    "g1" "g2" 0 1 ApiOutcome.espoError rfl rfl rfl rfl rfl rfl rfl

/-! ## Claim C4 -/

/-- The email extraction promotes an org-domain generic email into the 508
slot whenever the raw `c508Email` is absent, empty or the placeholder
`"None"`. -/
theorem extractEmails_promote (c : Json) (s : String)
    (h508 : pyStrOpt c "c508Email" = none ∨ pyStrOpt c "c508Email" = some "" ∨
      pyStrOpt c "c508Email" = some "None")
    (hgen : pyStrOpt c "emailAddress" = some s)
    (hends : strEndsWith s "@508.dev" = true) :
    extractEmails c = (some s, none) := by
  have hs : s ≠ "" := by
    intro h
    subst h
    exact absurd hends (by decide)
  unfold extractEmails
  rcases h508 with h | h | h <;>
    simp only [h, hgen, Option.some.injEq, strOptTruthy] <;>
    rw [if_pos ⟨hs, hends⟩] <;>
    simp

/-- C4: for a member/candidate contact with a truthy id whose `c508Email`
is absent, empty or the placeholder `"None"` and whose `emailAddress` ends
in `@508.dev`, a successful `_cache_contact` stores the member with
`email_508` equal to that generic email and `email_other` null; the
contact's service row links to that member id. -/
theorem c4_email_promotion (st st1 : Store) (c : Json) (cid mt s g : String)
    (t : Int) (hid : pyStrOpt c "id" = some cid) (hcid : (cid == "") = false)
    (hmt : memberTypeOf c = some mt)
    (h508 : pyStrOpt c "c508Email" = none ∨ pyStrOpt c "c508Email" = some "" ∨
      pyStrOpt c "c508Email" = some "None")
    (hgen : pyStrOpt c "emailAddress" = some s)
    (hends : strEndsWith s "@508.dev" = true)
    (hcache : cache_contact st c g t = Except.ok st1) :
    (st1.members.find? (fun m => m.id == g)).map
        (fun m => (m.email_508, m.email_other)) = some (some s, none) ∧
    (get_service_data st1 "espocrm" "contact" cid).map (fun r => r.member_id) =
      some (some g) := by
  obtain ⟨hmem, hsd, -⟩ := cache_contact_ok_state st st1 c g cid mt t hid hcid hmt hcache
  constructor
  · have hfid : (st.members.filter
        (fun m => !(memberConflict m (cachedMemberRow c g mt t)))).find?
        (fun m => m.id == g) = none := by
      rw [List.find?_eq_none]
      intro x hx
      have h2 := (List.mem_filter.mp hx).2
      intro hp
      have hcf : memberConflict x (cachedMemberRow c g mt t) = true := by
        unfold memberConflict
        rw [show (cachedMemberRow c g mt t).id = g from rfl]
        simp [hp]
      simp [hcf] at h2
    rw [hmem, find?_append_left_none _ _ _ hfid, List.find?_cons]
    have hpid : ((cachedMemberRow c g mt t).id == g) = true := by
      simp [cachedMemberRow]
    rw [hpid]
    have hex := extractEmails_promote c s h508 hgen hends
    simp [cachedMemberRow, hex]
  · rw [get_service_data_of_eq st1 "espocrm" "contact" cid st.service_data _ hsd rfl]
    rfl

/-- C4 witness: the theorem at the concrete contact `c4Alice` (placeholder
`"None"` org email, generic email `alice@508.dev`). -/
theorem c4_email_promotion_witness :
    (c4Store.members.find? (fun m => m.id == "w1")).map
        (fun m => (m.email_508, m.email_other)) = some (some "alice@508.dev", none) ∧
    (get_service_data c4Store "espocrm" "contact" "c9").map (fun r => r.member_id) =
      some (some "w1") :=
  c4_email_promotion emptyStore c4Store c4Alice "c9" "member" "alice@508.dev" "w1" 0
    rfl rfl rfl (Or.inr (Or.inr rfl)) rfl (by decide) rfl
